import Mathlib

/-!
Verification of the Freshly repository: shallow Lean embedding of the
freshness classifier, the category-name canonicalizer, the image-generation
retry logic and the per-key asset caching / fetching effects, together with
proofs of the specified properties.

Timestamps are modelled as integer milliseconds since the epoch in a fixed-
offset time zone (no daylight-saving transitions), matching the arithmetic
the source performs on Date values.
-/

set_option maxHeartbeats 1000000

namespace Freshly

/-! ### ExpiryClassifier: getExpiryStatus (src/src/App.tsx lines 332-344) -/

/-- Milliseconds in one day, the constant 1000 * 60 * 60 * 24 of the source. -/
def msPerDay : Int := 86400000

/-- Model of setHours(0,0,0,0): truncate a timestamp to the midnight of its
calendar day (floor to a multiple of msPerDay, in a fixed-offset zone).
Because msPerDay is positive, the floor division of JavaScript coincides with
euclidean division, which is the division of Int in Lean. -/
def midnightOf (t : Int) : Int := msPerDay * (t / msPerDay)

/-- The record returned by getExpiryStatus in the source: label, category,
daysLeft plus two presentation class strings. -/
structure ExpiryStatus where
  label : String
  category : String
  daysLeft : Int
  color : String
  shadow : String
deriving DecidableEq, Repr

/-- getExpiryStatus from src/src/App.tsx lines 332-344: normalize both the
current time and the expiry date to midnight, take the floored difference in
days, then bucket: daysLeft at most 2 is Urgent, at most 5 is Soon, else Fresh. -/
def getExpiryStatus (expiryDate now : Int) : ExpiryStatus :=
  let today := midnightOf now
  let expiry := midnightOf expiryDate
  let diffTime := expiry - today
  let daysLeft := diffTime / msPerDay
  if daysLeft ≤ 2 then
    ⟨"Urgent", "Urgent", daysLeft, "bg-orange-500", "shadow-orange-500/20"⟩
  else if daysLeft ≤ 5 then
    ⟨"Soon", "Soon", daysLeft, "bg-amber-400", "shadow-amber-400/20"⟩
  else
    ⟨"Fresh", "Fresh", daysLeft, "bg-emerald-500", "shadow-emerald-500/20"⟩

/-- Midnight of 2024-01-10 UTC: day 19732 since the epoch, in milliseconds. -/
def jan10_2024 : Int := 19732 * 86400000

/-- Midnight of 2024-01-11 UTC. -/
def jan11_2024 : Int := 19733 * 86400000

/-- Midnight of 2024-01-14 UTC. -/
def jan14_2024 : Int := 19736 * 86400000

/-- Midnight of 2024-01-20 UTC. -/
def jan20_2024 : Int := 19742 * 86400000

/-- Midnight of 2024-01-09 UTC. -/
def jan09_2024 : Int := 19731 * 86400000

/-- A time of day on 2024-01-10 (10:20:30 local). -/
def jan10_2024_morning : Int := jan10_2024 + 37230000

/-- A later time of day on 2024-01-10 (23:59:59.999 local). -/
def jan10_2024_evening : Int := jan10_2024 + 86399999

theorem getExpiryStatus_daysLeft (e n : Int) :
    (getExpiryStatus e n).daysLeft = (midnightOf e - midnightOf n) / msPerDay := by
  simp only [getExpiryStatus]
  split_ifs <;> rfl

theorem getExpiryStatus_category (e n : Int) :
    (getExpiryStatus e n).category =
      (if (getExpiryStatus e n).daysLeft ≤ 2 then "Urgent"
       else if (getExpiryStatus e n).daysLeft ≤ 5 then "Soon" else "Fresh") := by
  rw [getExpiryStatus_daysLeft]
  simp only [getExpiryStatus]
  split_ifs <;> rfl

/-- Claim C5: the expiry classifier, over midnight-normalized timestamps and
daysLeft given by floored day difference, returns Urgent exactly when
daysLeft is at most 2, Soon exactly when daysLeft is between 3 and 5, Fresh
exactly when daysLeft exceeds 5; and with today = 2024-01-10, expiry
2024-01-11 gives Urgent with daysLeft 1, 2024-01-14 gives Soon with
daysLeft 4, 2024-01-20 gives Fresh with daysLeft 10, and 2024-01-09 gives
Urgent with daysLeft -1. -/
theorem getExpiryStatus_thresholds_and_examples :
    (∀ e n : Int,
      ((getExpiryStatus e n).category = "Urgent" ↔ (getExpiryStatus e n).daysLeft ≤ 2)
      ∧ ((getExpiryStatus e n).category = "Soon" ↔
          (3 ≤ (getExpiryStatus e n).daysLeft ∧ (getExpiryStatus e n).daysLeft ≤ 5))
      ∧ ((getExpiryStatus e n).category = "Fresh" ↔ 5 < (getExpiryStatus e n).daysLeft))
    ∧ ((getExpiryStatus jan11_2024 jan10_2024_morning).category = "Urgent"
        ∧ (getExpiryStatus jan11_2024 jan10_2024_morning).daysLeft = 1)
    ∧ ((getExpiryStatus jan14_2024 jan10_2024_morning).category = "Soon"
        ∧ (getExpiryStatus jan14_2024 jan10_2024_morning).daysLeft = 4)
    ∧ ((getExpiryStatus jan20_2024 jan10_2024_morning).category = "Fresh"
        ∧ (getExpiryStatus jan20_2024 jan10_2024_morning).daysLeft = 10)
    ∧ ((getExpiryStatus jan09_2024 jan10_2024_morning).category = "Urgent"
        ∧ (getExpiryStatus jan09_2024 jan10_2024_morning).daysLeft = -1) := by
  refine ⟨fun e n => ?_, by decide, by decide, by decide, by decide⟩
  rw [getExpiryStatus_category]
  split_ifs with h1 h2 <;>
    refine ⟨?_, ?_, ?_⟩ <;>
    first
      | exact iff_of_true rfl (by omega)
      | exact iff_of_false (by decide) (by omega)

/-- Claim C9: the classifier is a pure total function of (now, expiry), and
since both inputs are normalized to midnight before subtraction, any two
invocations with the same expiry date whose now timestamps fall on the same
calendar day (equal midnights) return the same record, hence the same
category and the same daysLeft. -/
theorem getExpiryStatus_stable_within_day (e n1 n2 : Int)
    (h : midnightOf n1 = midnightOf n2) :
    getExpiryStatus e n1 = getExpiryStatus e n2 := by
  simp only [getExpiryStatus, h]

/-- Witness for C9 at concrete inputs: a morning and an evening timestamp of
2024-01-10 share a midnight, so classifying an expiry of 2024-01-14 at either
time gives the same result. -/
theorem getExpiryStatus_stable_within_day_witness :
    midnightOf jan10_2024_morning = midnightOf jan10_2024_evening
    ∧ getExpiryStatus jan14_2024 jan10_2024_morning
        = getExpiryStatus jan14_2024 jan10_2024_evening :=
  ⟨by decide,
   getExpiryStatus_stable_within_day jan14_2024 jan10_2024_morning jan10_2024_evening
     (by decide)⟩

/-! ### getCategoryKey (src/src/App.tsx lines 315-330, src/unnamed/part_001
lines 357-375)

Category names are modelled as lists of Unicode code points (a faithful view
of JavaScript strings for this data). jsToLower models toLowerCase on the
characters that occur in this domain: ASCII capitals and the Latin-1
uppercase letters (codes 192-222 except the multiplication sign 215) map to
the code point 32 above them; every other code point is left unchanged. -/

/-- Character-level model of toLowerCase of JavaScript for Basic Latin and
Latin-1 letters. -/
def jsToLower (c : Nat) : Nat :=
  if 65 ≤ c ∧ c ≤ 90 then c + 32
  else if 192 ≤ c ∧ c ≤ 222 ∧ c ≠ 215 then c + 32
  else c

/-- Model of String.prototype.toLowerCase. -/
def toLowerCase (s : List Nat) : List Nat := s.map jsToLower

/-- Code points of a Lean string literal, used to write the map keys. -/
def codes (s : String) : List Nat := s.data.map Char.toNat

/-- CATEGORY_MAP from src/src/App.tsx lines 315-328, as an association list
in source order. -/
def CATEGORY_MAP : List (List Nat × List Nat) :=
  [(codes "granos", codes "granos"),
   (codes "verduras", codes "verduras"),
   (codes "frutas", codes "frutas"),
   (codes "lácteos", codes "lacteos"),
   (codes "lacteos", codes "lacteos"),
   (codes "proteínas", codes "proteinas"),
   (codes "proteinas", codes "proteinas"),
   (codes "dairy", codes "lacteos"),
   (codes "meat", codes "proteinas"),
   (codes "vegetables", codes "verduras"),
   (codes "fruit", codes "frutas"),
   (codes "pantry", codes "granos")]

/-- CATEGORY_MAP of the variant in src/unnamed/part_001 lines 357-371, which
adds the English aliases grains, fruits and proteins. -/
def CATEGORY_MAP_part001 : List (List Nat × List Nat) :=
  [(codes "grains", codes "granos"),
   (codes "vegetables", codes "verduras"),
   (codes "fruits", codes "frutas"),
   (codes "dairy", codes "lacteos"),
   (codes "proteins", codes "proteinas"),
   (codes "granos", codes "granos"),
   (codes "verduras", codes "verduras"),
   (codes "frutas", codes "frutas"),
   (codes "lácteos", codes "lacteos"),
   (codes "lacteos", codes "lacteos"),
   (codes "proteínas", codes "proteinas"),
   (codes "proteinas", codes "proteinas"),
   (codes "meat", codes "proteinas"),
   (codes "fruit", codes "frutas"),
   (codes "pantry", codes "granos")]

/-- The lookup-or-lowercase canonicalization, parameterized by the alias map:
CATEGORY_MAP[cat.toLowerCase()] with the lowercased input as fallback. -/
def getCategoryKeyWith (m : List (List Nat × List Nat)) (cat : List Nat) : List Nat :=
  match m.find? (fun p => p.1 == toLowerCase cat) with
  | some p => p.2
  | none => toLowerCase cat

/-- getCategoryKey from src/src/App.tsx line 330. -/
def getCategoryKey (cat : List Nat) : List Nat := getCategoryKeyWith CATEGORY_MAP cat

/-- The five canonical category ids. -/
def canonicalIds : List (List Nat) :=
  [codes "granos", codes "verduras", codes "frutas", codes "lacteos", codes "proteinas"]

theorem jsToLower_idem (c : Nat) : jsToLower (jsToLower c) = jsToLower c := by
  unfold jsToLower
  split_ifs <;> omega

theorem toLowerCase_idem (s : List Nat) : toLowerCase (toLowerCase s) = toLowerCase s := by
  induction s with
  | nil => rfl
  | cons c t ih =>
      simp only [toLowerCase, List.map_cons] at *
      rw [jsToLower_idem]
      exact congrArg _ (by simpa [toLowerCase] using ih)

theorem getCategoryKeyWith_idem (m : List (List Nat × List Nat))
    (hfix : ∀ p ∈ m, getCategoryKeyWith m p.2 = p.2) (c : List Nat) :
    getCategoryKeyWith m (getCategoryKeyWith m c) = getCategoryKeyWith m c := by
  cases hf : m.find? (fun p => p.1 == toLowerCase c) with
  | some p =>
      have h1 : getCategoryKeyWith m c = p.2 := by simp [getCategoryKeyWith, hf]
      rw [h1]
      exact hfix p (List.mem_of_find?_eq_some hf)
  | none =>
      have h1 : getCategoryKeyWith m c = toLowerCase c := by simp [getCategoryKeyWith, hf]
      rw [h1]
      simp [getCategoryKeyWith, toLowerCase_idem, hf]

/-- Claim C10: getCategoryKey is an idempotent canonicalization; every alias
in CATEGORY_MAP (in both source variants) maps to one of the five canonical
ids, each canonical id maps to itself, and a category absent from the map
goes to its lowercase form. Cased and accented inputs are checked on
concrete examples. -/
theorem getCategoryKey_canonicalization :
    (∀ c : List Nat, getCategoryKey (getCategoryKey c) = getCategoryKey c)
    ∧ (∀ p ∈ CATEGORY_MAP,
        p.2 ∈ canonicalIds ∧ getCategoryKey p.1 = p.2 ∧ getCategoryKey p.2 = p.2)
    ∧ (∀ p ∈ CATEGORY_MAP_part001,
        p.2 ∈ canonicalIds
        ∧ getCategoryKeyWith CATEGORY_MAP_part001 p.1 = p.2
        ∧ getCategoryKeyWith CATEGORY_MAP_part001 p.2 = p.2)
    ∧ (∀ c : List Nat,
        CATEGORY_MAP.find? (fun p => p.1 == toLowerCase c) = none →
          getCategoryKey c = toLowerCase c)
    ∧ getCategoryKey (codes "Lácteos") = codes "lacteos"
    ∧ getCategoryKey (codes "Dairy") = codes "lacteos"
    ∧ getCategoryKey (codes "PROTEÍNAS") = codes "proteinas"
    ∧ getCategoryKey (codes "Sushi") = codes "sushi" := by
  have hfix : ∀ p ∈ CATEGORY_MAP, getCategoryKeyWith CATEGORY_MAP p.2 = p.2 := by decide
  refine ⟨fun c => getCategoryKeyWith_idem CATEGORY_MAP hfix c, by decide, by decide,
    ?_, by decide, by decide, by decide, by decide⟩
  intro c hf
  simp [getCategoryKey, getCategoryKeyWith, hf]

/-- Witness for C10 at a concrete input: the unknown category Sushi is not in
the alias map and canonicalizes to its lowercase form. -/
theorem getCategoryKey_canonicalization_witness :
    getCategoryKey (codes "SUSHI") = toLowerCase (codes "SUSHI") :=
  getCategoryKey_canonicalization.2.2.2.1 (codes "SUSHI") (by decide)

/-! ### ThrottledGenerator: generateOnboardingImage and generateIndividualIcon
(src/src/services/geminiService.ts lines 90-120 and 122-155)

One provider call is modelled by consuming one element of a list of provider
outcomes: a successful image payload, a rate-limit error (code 429), any
other error, or a response carrying no image part. The model returns the
string result of the source function together with two observables: how many
provider calls were made and the list of backoff waits performed, in order. -/

/-- Outcome of a single provider call. -/
inductive GenOutcome
  | ok (data : String)
  | rate
  | other
  | empty
deriving DecidableEq, Repr

/-- The shared retry logic of generateIndividualIcon and
generateOnboardingImage: on a 429 error with retryCount below 3, wait
baseDelay * (retryCount + 1) and recurse with retryCount + 1; on any other
error or an imageless response, return the empty string at once; on success
return the data URL. Result: (returned string, provider calls, waits). -/
def generateWithRetry (baseDelay : Nat) : Nat → List GenOutcome → String × Nat × List Nat
  | _, [] => ("", 0, [])
  | retryCount, o :: rest =>
    match o with
    | .ok d => ("data:image/png;base64," ++ d, 1, [])
    | .empty => ("", 1, [])
    | .other => ("", 1, [])
    | .rate =>
      if retryCount < 3 then
        let r := generateWithRetry baseDelay (retryCount + 1) rest
        (r.1, r.2.1 + 1, baseDelay * (retryCount + 1) :: r.2.2)
      else ("", 1, [])

/-- generateOnboardingImage: base delay 10000 ms. -/
def generateOnboardingImage : Nat → List GenOutcome → String × Nat × List Nat :=
  generateWithRetry 10000

/-- generateIndividualIcon: base delay 5000 ms. -/
def generateIndividualIcon : Nat → List GenOutcome → String × Nat × List Nat :=
  generateWithRetry 5000

theorem generateWithRetry_calls_le (d : Nat) (rc : Nat) (outs : List GenOutcome) :
    (generateWithRetry d rc outs).2.1 ≤ 4 - rc ∨ (generateWithRetry d rc outs).2.1 ≤ 1 := by
  induction outs generalizing rc with
  | nil => simp [generateWithRetry]
  | cons o rest ih =>
      cases o with
      | ok s => right; simp [generateWithRetry]
      | other => right; simp [generateWithRetry]
      | empty => right; simp [generateWithRetry]
      | rate =>
          by_cases h : rc < 3
          · left
            simp only [generateWithRetry, if_pos h]
            rcases ih (rc + 1) with h2 | h2 <;> omega
          · right; simp [generateWithRetry, if_neg h]

/-- Claim C2: on RateLimited failures the generator waits
baseDelay * (attempt + 1) before retrying, a linear non-decreasing schedule,
and retries at most 3 times: three 429s followed by success give exactly 4
provider calls with waits baseDelay*1, baseDelay*2, baseDelay*3; a call
seeing only 429s makes exactly 4 calls (no 5th, however many more failures
are available) and returns the permanent-failure value; no run from a fresh
call makes more than 4 provider calls. The concrete base delays of the two
source functions, 10000 and 5000 ms, are also checked. -/
theorem generateWithRetry_backoff (d : Nat) (s : String) (k : Nat) (hk : 4 ≤ k) :
    generateWithRetry d 0 [.rate, .rate, .rate, .ok s]
      = ("data:image/png;base64," ++ s, 4, [d * 1, d * 2, d * 3])
    ∧ (d * 1 ≤ d * 2 ∧ d * 2 ≤ d * 3)
    ∧ generateWithRetry d 0 (List.replicate k .rate) = ("", 4, [d * 1, d * 2, d * 3])
    ∧ (∀ outs : List GenOutcome, (generateWithRetry d 0 outs).2.1 ≤ 4)
    ∧ generateOnboardingImage 0 (List.replicate k .rate) = ("", 4, [10000, 20000, 30000])
    ∧ generateIndividualIcon 0 (List.replicate k .rate) = ("", 4, [5000, 10000, 15000]) := by
  obtain ⟨m, rfl⟩ := Nat.exists_eq_add_of_le hk
  have hrep : ∀ b : Nat, generateWithRetry b 0 (List.replicate (4 + m) .rate)
      = ("", 4, [b * 1, b * 2, b * 3]) := by
    intro b
    rw [List.replicate_add]
    rfl
  refine ⟨rfl, by omega, hrep d, ?_, ?_, ?_⟩
  · intro outs
    rcases generateWithRetry_calls_le d 0 outs with h | h <;> omega
  · simpa using hrep 10000
  · simpa using hrep 5000

/-- Witness for C2: with base delay 7 and five rate-limit outcomes available,
exactly 4 provider calls are made, the waits are 7, 14, 21, and the call
fails permanently. -/
theorem generateWithRetry_backoff_witness :
    (4 ≤ 5)
    ∧ generateWithRetry 7 0 (List.replicate 5 .rate) = ("", 4, [7 * 1, 7 * 2, 7 * 3]) :=
  ⟨by decide, (generateWithRetry_backoff 7 "x" 5 (by decide)).2.2.1⟩

/-- Claim C6: a provider failure that is not RateLimited, and likewise a
response with no image payload, is never retried: exactly one provider call
is made, no backoff wait is performed, and the failure is surfaced as the
non-throwing empty-string result (the model is a total function into String,
mirroring that the source catches every exception and returns a value). -/
theorem generateWithRetry_no_retry_on_other (d rc : Nat) (rest : List GenOutcome) :
    generateWithRetry d rc (.other :: rest) = ("", 1, [])
    ∧ generateWithRetry d rc (.empty :: rest) = ("", 1, [])
    ∧ generateOnboardingImage rc (.other :: rest) = ("", 1, [])
    ∧ generateIndividualIcon rc (.empty :: rest) = ("", 1, []) :=
  ⟨rfl, rfl, rfl, rfl⟩

/-! ### AssetCache: the per-key fetchImage effect (src/src/App.tsx lines
94-126, src/unnamed/part_001 lines 127-159)

Concurrent invocations of fetchImage for one key are modelled as identical
tasks moving through the code's atomic segments, which are delimited by its
await points:

* segment 0: the check of images[key]; a task halts if the value is present,
  otherwise it suspends on the IndexedDB get;
* segment 1: resume from the get; on a cached hit the task stores the value
  and halts; otherwise it halts if loadingImages[key] is set, else it sets
  the flag, dispatches the provider call (counted) and suspends on it;
* segment 2: resume from a successful provider call; the task stores the
  generated value and suspends on the IndexedDB set;
* segment 3: resume from the set (which succeeded iff setOk); the finally
  block clears the loading flag and the task halts.

State: the shared value (images[key]), the persistent store content for the
key (idb), the loading flag, the number of provider calls made, and how many
tasks sit at each segment (n0-n3) or have halted (nd). A schedule is the
list of segment indices the cooperative scheduler runs next, indices with no
waiting task being no-ops. The provider is assumed to succeed, returning
prov (generator-level failure behaviour is treated with claims C2 and C6).

This model lets every segment read the entry state live. In the source the
checks of images[key] and loadingImages[key] read the React render snapshot
captured by the closure, and only the setState writes are live. The claims
settled on this model, C4 and C7, do not depend on that difference: the
cache-hit short-circuit is decided by the live IndexedDB read, and the
kept-value property only needs that the value, once written, is never
unwritten. Claim C1 is sensitive to exactly this difference and is settled
below on a second model that carries the snapshots. -/

structure CacheConfig where
  value   : Option Nat
  idb     : Option Nat
  loading : Bool
  calls   : Nat
  n0 : Nat
  n1 : Nat
  n2 : Nat
  n3 : Nat
  nd : Nat
deriving DecidableEq, Repr

/-- One atomic segment of fetchImage, executed by a task waiting at the
chosen segment (no-op when no task waits there). -/
def fetchImageStep (prov : Nat) (setOk : Bool) (c : CacheConfig) : Nat → CacheConfig
  | 0 =>
    if c.n0 = 0 then c
    else if c.value.isSome then { c with n0 := c.n0 - 1, nd := c.nd + 1 }
    else { c with n0 := c.n0 - 1, n1 := c.n1 + 1 }
  | 1 =>
    if c.n1 = 0 then c
    else
      match c.idb with
      | some w => { c with n1 := c.n1 - 1, nd := c.nd + 1, value := some w }
      | none =>
        if c.loading then { c with n1 := c.n1 - 1, nd := c.nd + 1 }
        else { c with n1 := c.n1 - 1, n2 := c.n2 + 1, loading := true, calls := c.calls + 1 }
  | 2 =>
    if c.n2 = 0 then c
    else { c with n2 := c.n2 - 1, n3 := c.n3 + 1, value := some prov }
  | 3 =>
    if c.n3 = 0 then c
    else { c with n3 := c.n3 - 1, nd := c.nd + 1, loading := false,
                  idb := if setOk then some prov else c.idb }
  | _ + 4 => c

/-- Run a schedule of segment choices. -/
def fetchImageRun (prov : Nat) (setOk : Bool) : List Nat → CacheConfig → CacheConfig
  | [], c => c
  | i :: rest, c => fetchImageRun prov setOk rest (fetchImageStep prov setOk c i)

/-- n concurrent fetchImage invocations for a key with empty caches. -/
def fetchImageInit (n : Nat) : CacheConfig := ⟨none, none, false, 0, n, 0, 0, 0, 0⟩

/-- n concurrent fetchImage invocations for a key whose persistent store
already holds w. -/
def fetchImageInitHit (n w : Nat) : CacheConfig := ⟨none, some w, false, 0, n, 0, 0, 0, 0⟩

/-- Total number of tasks, preserved by every step. -/
def taskCount (c : CacheConfig) : Nat := c.n0 + c.n1 + c.n2 + c.n3 + c.nd

theorem taskCount_step (prov : Nat) (setOk : Bool) (c : CacheConfig) (i : Nat) :
    taskCount (fetchImageStep prov setOk c i) = taskCount c := by
  obtain ⟨v, idb, ld, calls, n0, n1, n2, n3, nd⟩ := c
  unfold taskCount
  rcases i with _|_|_|_|i <;>
    simp only [fetchImageStep] <;>
    cases v <;> cases idb <;> cases ld <;>
    (try split_ifs) <;>
    simp_all <;> (try omega)

theorem taskCount_run (prov : Nat) (setOk : Bool) (sched : List Nat) (c : CacheConfig) :
    taskCount (fetchImageRun prov setOk sched c) = taskCount c := by
  induction sched generalizing c with
  | nil => rfl
  | cons i rest ih => rw [fetchImageRun, ih, taskCount_step]

/-- Inductive invariant for a key whose persistent store already holds w:
the provider is never dispatched and every halted task saw the value w. -/
def CacheHitInv (w : Nat) (c : CacheConfig) : Prop :=
  c.idb = some w ∧ c.loading = false ∧ c.calls = 0 ∧ c.n2 = 0 ∧ c.n3 = 0
  ∧ (c.value = none ∨ c.value = some w)
  ∧ (1 ≤ c.nd → c.value = some w)

theorem cacheHitInv_step (prov w : Nat) (setOk : Bool) (c : CacheConfig) (i : Nat)
    (h : CacheHitInv w c) : CacheHitInv w (fetchImageStep prov setOk c i) := by
  obtain ⟨v, idb, ld, calls, n0, n1, n2, n3, nd⟩ := c
  unfold CacheHitInv at h ⊢
  rcases i with _|_|_|_|i <;>
    simp only [fetchImageStep] <;>
    cases v <;> cases idb <;> cases ld <;>
    (try split_ifs) <;>
    simp_all

theorem cacheHitInv_run (prov w : Nat) (setOk : Bool) (sched : List Nat) (c : CacheConfig)
    (h : CacheHitInv w c) : CacheHitInv w (fetchImageRun prov setOk sched c) := by
  induction sched generalizing c with
  | nil => exact h
  | cons i rest ih => exact ih _ (cacheHitInv_step prov w setOk c i h)

/-- Claim C4: when the persistent store holds a value for the key, every
interleaving of any number of requests makes zero provider calls, and a
completed run reports the persisted value: the request short-circuits to
Ready without generation. -/
theorem ensure_cacheHit (prov w n : Nat) (setOk : Bool) (sched : List Nat)
    (hd0 : (fetchImageRun prov setOk sched (fetchImageInitHit n w)).n0 = 0)
    (hd1 : (fetchImageRun prov setOk sched (fetchImageInitHit n w)).n1 = 0)
    (hn : 1 ≤ n) :
    (fetchImageRun prov setOk sched (fetchImageInitHit n w)).calls = 0
    ∧ (fetchImageRun prov setOk sched (fetchImageInitHit n w)).value = some w
    ∧ (∀ s2 : List Nat, (fetchImageRun prov setOk s2 (fetchImageInitHit n w)).calls = 0) := by
  have hinit : CacheHitInv w (fetchImageInitHit n w) := by
    unfold CacheHitInv fetchImageInitHit
    simp
  have hrun := cacheHitInv_run prov w setOk sched _ hinit
  obtain ⟨h1, h2, h3, h4, h5, h6, h7⟩ := hrun
  have htot := taskCount_run prov setOk sched (fetchImageInitHit n w)
  have htot2 : taskCount (fetchImageInitHit n w) = n := by simp [taskCount, fetchImageInitHit]
  rw [htot2] at htot
  unfold taskCount at htot
  refine ⟨h3, h7 (by omega), fun s2 => ?_⟩
  exact (cacheHitInv_run prov w setOk s2 _ hinit).2.2.1

/-- Witness for C4 at a concrete input: one request against a persisted
value 5 completes with zero provider calls and reports 5. -/
theorem ensure_cacheHit_witness :
    (fetchImageRun 9 true [0, 1] (fetchImageInitHit 1 5)).calls = 0
    ∧ (fetchImageRun 9 true [0, 1] (fetchImageInitHit 1 5)).value = some 5 :=
  ⟨(ensure_cacheHit 9 5 1 true [0, 1] (by decide) (by decide) (by decide)).1,
   (ensure_cacheHit 9 5 1 true [0, 1] (by decide) (by decide) (by decide)).2.1⟩

theorem valueSticky_step (prov : Nat) (c : CacheConfig) (i : Nat)
    (hv : c.value = some prov) (hi : c.idb = none) :
    (fetchImageStep prov false c i).value = some prov
    ∧ (fetchImageStep prov false c i).idb = none := by
  obtain ⟨v, idb, ld, calls, n0, n1, n2, n3, nd⟩ := c
  rcases i with _|_|_|_|i <;>
    simp only [fetchImageStep] <;>
    cases ld <;>
    (try split_ifs) <;>
    simp_all

theorem valueSticky_run (prov : Nat) (sched : List Nat) (c : CacheConfig)
    (hv : c.value = some prov) (hi : c.idb = none) :
    (fetchImageRun prov false sched c).value = some prov := by
  induction sched generalizing c with
  | nil => exact hv
  | cons i rest ih =>
      obtain ⟨h1, h2⟩ := valueSticky_step prov c i hv hi
      exact ih _ h1 h2

/-- Claim C7: when the persistent set fails after a successful generation,
the in-memory result is not rolled back: the completed request reports the
generated value with the loading flag clear and one provider call made, the
store is still empty, and the value stays visible under any further
scheduling, including after m additional requests for the key arrive later
in the session. -/
theorem fetchImage_set_failure_keeps_ready (prov m : Nat) (s2 : List Nat) :
    (fetchImageRun prov false [0, 1, 2, 3] (fetchImageInit 1)).value = some prov
    ∧ (fetchImageRun prov false [0, 1, 2, 3] (fetchImageInit 1)).loading = false
    ∧ (fetchImageRun prov false [0, 1, 2, 3] (fetchImageInit 1)).calls = 1
    ∧ (fetchImageRun prov false [0, 1, 2, 3] (fetchImageInit 1)).idb = none
    ∧ (fetchImageRun prov false s2
        { fetchImageRun prov false [0, 1, 2, 3] (fetchImageInit 1) with n0 := m }).value
        = some prov := by
  refine ⟨rfl, rfl, rfl, rfl, ?_⟩
  exact valueSticky_run prov s2 _ rfl rfl

/-! ### Request deduplication under the render-snapshot semantics of the
source (src/src/App.tsx lines 94-126, src/unnamed/part_001 lines 127-159)

Each fetchImage invocation is a closure created by an effect run whose deps
are only the step key: its reads of images[key] (segment 0) and of
loadingImages[key] (segment 1) see the render-time snapshot of the state,
while the setImages and setLoadingImages writes, being functional updaters,
mutate the live committed state. A request therefore carries two booleans
captured at its creation: whether its snapshot showed the value present and
whether it showed the loading flag set. Requests are grouped by what those
snapshots make them do:

* n0hit: snapshot showed the value; the request returns at segment 0;
* n0t / n1t: snapshot showed the loading flag; after its IndexedDB get the
  request either attaches to a persisted value or returns;
* n0f / n1f: snapshot showed neither (the request began while the key was
  neither pending nor resolved; the ghost counter early counts these);
  after a get miss such a request sets the flag and dispatches the provider
  call, regardless of the flag's current live state, because it consults
  only its stale snapshot;
* n2, n3, nd: in generation, in the persistent set, halted, as before.

Schedule codes: 0 spawns a request whose snapshot reflects the current
committed state, 1-7 run segment 0 of each group, segment 1 of each group,
the generation resume and the set resume; codes with no waiting request are
no-ops. The provider is assumed to succeed, returning prov. -/

structure SnapConfig where
  value   : Option Nat
  idb     : Option Nat
  loading : Bool
  calls   : Nat
  early   : Nat
  n0hit : Nat
  n0t : Nat
  n0f : Nat
  n1t : Nat
  n1f : Nat
  n2 : Nat
  n3 : Nat
  nd : Nat
deriving DecidableEq, Repr

/-- One event of the snapshot model: a spawn or one atomic segment. -/
def fetchImageSnapStep (prov : Nat) (setOk : Bool) (c : SnapConfig) : Nat → SnapConfig
  | 0 =>
    if c.value.isSome then { c with n0hit := c.n0hit + 1 }
    else if c.loading then { c with n0t := c.n0t + 1 }
    else { c with n0f := c.n0f + 1, early := c.early + 1 }
  | 1 => if c.n0hit = 0 then c else { c with n0hit := c.n0hit - 1, nd := c.nd + 1 }
  | 2 => if c.n0t = 0 then c else { c with n0t := c.n0t - 1, n1t := c.n1t + 1 }
  | 3 => if c.n0f = 0 then c else { c with n0f := c.n0f - 1, n1f := c.n1f + 1 }
  | 4 =>
    if c.n1t = 0 then c
    else
      match c.idb with
      | some w => { c with n1t := c.n1t - 1, nd := c.nd + 1, value := some w }
      | none => { c with n1t := c.n1t - 1, nd := c.nd + 1 }
  | 5 =>
    if c.n1f = 0 then c
    else
      match c.idb with
      | some w => { c with n1f := c.n1f - 1, nd := c.nd + 1, value := some w }
      | none =>
        { c with n1f := c.n1f - 1, n2 := c.n2 + 1, loading := true,
                 calls := c.calls + 1 }
  | 6 => if c.n2 = 0 then c else { c with n2 := c.n2 - 1, n3 := c.n3 + 1, value := some prov }
  | 7 =>
    if c.n3 = 0 then c
    else
      { c with n3 := c.n3 - 1, nd := c.nd + 1, loading := false,
               idb := if setOk then some prov else c.idb }
  | _ + 8 => c

/-- Run a schedule of events of the snapshot model. -/
def fetchImageSnapRun (prov : Nat) (setOk : Bool) : List Nat → SnapConfig → SnapConfig
  | [], c => c
  | i :: rest, c => fetchImageSnapRun prov setOk rest (fetchImageSnapStep prov setOk c i)

/-- A session starts with empty caches, a clear flag and no requests. -/
def fetchImageSnapInit : SnapConfig := ⟨none, none, false, 0, 0, 0, 0, 0, 0, 0, 0, 0, 0⟩

/-- Total number of requests spawned so far. -/
def snapTaskCount (c : SnapConfig) : Nat :=
  c.n0hit + c.n0t + c.n0f + c.n1t + c.n1f + c.n2 + c.n3 + c.nd

/-- Inductive invariant: every provider call was dispatched by a request that
was spawned while the key was neither pending nor resolved, and such
requests dispatch at most once, so calls plus the early requests still on
their way to the dispatch point never exceed the early count, which never
exceeds the number of requests. -/
def SnapInv (c : SnapConfig) : Prop :=
  c.calls + c.n0f + c.n1f ≤ c.early ∧ c.early ≤ snapTaskCount c

theorem snapInv_step (prov : Nat) (setOk : Bool) (c : SnapConfig) (i : Nat)
    (h : SnapInv c) : SnapInv (fetchImageSnapStep prov setOk c i) := by
  obtain ⟨v, idb, ld, calls, early, n0hit, n0t, n0f, n1t, n1f, n2, n3, nd⟩ := c
  unfold SnapInv snapTaskCount at h ⊢
  rcases i with _|_|_|_|_|_|_|_|i <;>
    simp only [fetchImageSnapStep] <;>
    cases v <;> cases idb <;> cases ld <;>
    (try split_ifs) <;>
    simp_all <;> (try omega)

theorem snapInv_run (prov : Nat) (setOk : Bool) (sched : List Nat) (c : SnapConfig)
    (h : SnapInv c) : SnapInv (fetchImageSnapRun prov setOk sched c) := by
  induction sched generalizing c with
  | nil => exact h
  | cons i rest ih => exact ih _ (snapInv_step prov setOk c i h)

/-- Claim C1 (amended): a request created while the key's value is visible
or its loading flag is set attaches to the existing entry and never
dispatches a provider call, and every request dispatches at most once: under
every interleaving the provider-call count for a key is bounded by the
number of requests created while the key was neither pending nor resolved,
and by the total number of requests; it is not exactly 1 in general, because
the loading check reads the request's render-time snapshot, not live state
(see the counterexample). The concrete conjuncts exercise both attach paths:
a second request arriving during generation, and one arriving after
resolution, leave the call count at 1. -/
theorem fetchImage_request_dedup (prov : Nat) (setOk : Bool) (sched : List Nat) :
    ((fetchImageSnapRun prov setOk sched fetchImageSnapInit).calls
        ≤ (fetchImageSnapRun prov setOk sched fetchImageSnapInit).early
      ∧ (fetchImageSnapRun prov setOk sched fetchImageSnapInit).early
        ≤ snapTaskCount (fetchImageSnapRun prov setOk sched fetchImageSnapInit))
    ∧ (fetchImageSnapRun 7 true [0, 3, 5, 0, 2, 4, 6, 7] fetchImageSnapInit).calls = 1
    ∧ (fetchImageSnapRun 7 true [0, 3, 5, 6, 7, 0, 1] fetchImageSnapInit).calls = 1 := by
  refine ⟨?_, by decide, by decide⟩
  have hinit : SnapInv fetchImageSnapInit := by
    unfold SnapInv snapTaskCount fetchImageSnapInit
    simp
  have h := snapInv_run prov setOk sched fetchImageSnapInit hinit
  obtain ⟨h1, h2⟩ := h
  exact ⟨by omega, h2⟩

/-- Counterexample to claim C1 as stated: two requests for the same key both
created before the first one sets the loading flag (their snapshots show no
value and a clear flag). After both IndexedDB gets miss, each request
consults only its own stale snapshot of loadingImages and dispatches: the
run completes with two provider calls even though every persistent set
succeeds and the generated value is stored — the provider-call count is 2,
not 1, with two generations in flight at once mid-run. -/
theorem fetchImage_snapshot_counterexample :
    (fetchImageSnapRun 7 true [0, 0, 3, 3, 5, 5, 6, 7, 6, 7] fetchImageSnapInit).calls = 2
    ∧ (fetchImageSnapRun 7 true [0, 0, 3, 3, 5, 5] fetchImageSnapInit).n2 = 2
    ∧ (fetchImageSnapRun 7 true [0, 0, 3, 3, 5, 5, 6, 7, 6, 7] fetchImageSnapInit).n0hit = 0
    ∧ (fetchImageSnapRun 7 true [0, 0, 3, 3, 5, 5, 6, 7, 6, 7] fetchImageSnapInit).n0t = 0
    ∧ (fetchImageSnapRun 7 true [0, 0, 3, 3, 5, 5, 6, 7, 6, 7] fetchImageSnapInit).n0f = 0
    ∧ (fetchImageSnapRun 7 true [0, 0, 3, 3, 5, 5, 6, 7, 6, 7] fetchImageSnapInit).n1t = 0
    ∧ (fetchImageSnapRun 7 true [0, 0, 3, 3, 5, 5, 6, 7, 6, 7] fetchImageSnapInit).n1f = 0
    ∧ (fetchImageSnapRun 7 true [0, 0, 3, 3, 5, 5, 6, 7, 6, 7] fetchImageSnapInit).n2 = 0
    ∧ (fetchImageSnapRun 7 true [0, 0, 3, 3, 5, 5, 6, 7, 6, 7] fetchImageSnapInit).n3 = 0
    ∧ (fetchImageSnapRun 7 true [0, 0, 3, 3, 5, 5, 6, 7, 6, 7] fetchImageSnapInit).nd = 2
    ∧ (fetchImageSnapRun 7 true [0, 0, 3, 3, 5, 5, 6, 7, 6, 7] fetchImageSnapInit).value = some 7
    ∧ (fetchImageSnapRun 7 true [0, 0, 3, 3, 5, 5, 6, 7, 6, 7] fetchImageSnapInit).idb = some 7 := by
  decide

/-! ### Dispatch timing of the bulk fetching effects (src/src/App.tsx lines
389-428, src/unnamed/part_001 lines 438-556)

On mount the App component starts its fetching effects concurrently. Each
effect issues its provider calls sequentially, awaiting one call before
dispatching the next; fetchIcons additionally waits 3000 ms after each
successful generation, while fetchEmptyStates inserts no wait at all. The
model computes the dispatch times of each effect from a start time and the
durations (and, for fetchIcons, success flags) of its calls. -/

/-- Dispatch times of the provider calls of the fetchIcons loop: each
category icon call starts at t, runs for its duration, and on success is
followed by a 3000 ms wait before the next dispatch (no wait on failure). -/
def fetchIconsDispatchTimes : Nat → List (Nat × Bool) → List Nat
  | _, [] => []
  | t, (d, ok) :: rest =>
      t :: fetchIconsDispatchTimes (t + d + if ok then 3000 else 0) rest

/-- Dispatch times of the provider calls of the fetchEmptyStates loop: each
call starts when the previous one resolves, with no inserted wait. -/
def fetchEmptyStatesDispatchTimes : Nat → List Nat → List Nat
  | _, [] => []
  | t, d :: rest => t :: fetchEmptyStatesDispatchTimes (t + d) rest

/-- All provider dispatch times after mount: fetchIcons and fetchEmptyStates
both start at time 0 and run concurrently. -/
def mountDispatchTimes (iconCalls : List (Nat × Bool)) (emptyCalls : List Nat) : List Nat :=
  fetchIconsDispatchTimes 0 iconCalls ++ fetchEmptyStatesDispatchTimes 0 emptyCalls

/-- Every pair of dispatch times is at least m apart. -/
def spaced (m : Nat) (ts : List Nat) : Prop :=
  ts.Pairwise (fun a b => a + m ≤ b ∨ b + m ≤ a)

instance (m : Nat) (ts : List Nat) : Decidable (spaced m ts) := by
  unfold spaced
  infer_instance

/-- Counterexample to claim C3 as stated: there is no single global queue.
With every call taking 1000 ms and succeeding, the first category-icon call
and the first empty-state call are both dispatched at time 0, so the
dispatch times after mount respect neither the 3000 ms spacing configured in
fetchIcons nor any positive minimum spacing at all. -/
theorem global_spacing_counterexample :
    ¬ spaced 3000 (mountDispatchTimes
        [(1000, true), (1000, true), (1000, true), (1000, true), (1000, true)]
        [1000, 1000])
    ∧ ¬ spaced 1 (mountDispatchTimes [(1000, true)] [500]) := by
  decide

theorem fetchIcons_chain (t : Nat) (ds : List Nat) :
    List.Chain' (fun a b => a + 3000 ≤ b)
      (fetchIconsDispatchTimes t (ds.map (fun d => (d, true)))) := by
  induction ds generalizing t with
  | nil => simp [fetchIconsDispatchTimes]
  | cons d rest ih =>
      simp only [List.map_cons, fetchIconsDispatchTimes, if_pos]
      rw [List.chain'_cons']
      refine ⟨?_, ih _⟩
      intro y hy
      cases rest with
      | nil => simp [fetchIconsDispatchTimes] at hy
      | cons e es =>
          simp only [List.map_cons, fetchIconsDispatchTimes, List.head?_cons,
            Option.mem_def, Option.some.injEq] at hy
          omega

theorem fetchEmptyStates_chain (t : Nat) (ds : List Nat) :
    List.Chain' (fun a b => a ≤ b) (fetchEmptyStatesDispatchTimes t ds) := by
  induction ds generalizing t with
  | nil => simp [fetchEmptyStatesDispatchTimes]
  | cons d rest ih =>
      rw [fetchEmptyStatesDispatchTimes, List.chain'_cons']
      refine ⟨?_, ih _⟩
      intro y hy
      cases rest with
      | nil => simp [fetchEmptyStatesDispatchTimes] at hy
      | cons e es =>
          simp only [fetchEmptyStatesDispatchTimes, List.head?_cons,
            Option.mem_def, Option.some.injEq] at hy
          omega

/-- Claim C3 (amended): provider calls are serialized only within each
fetching effect, not through a global queue. Within fetchIcons, consecutive
dispatches are at least 3000 ms apart whenever the generations succeed;
within fetchEmptyStates, dispatches are merely ordered (each awaits the
previous call) with no minimum spacing; effects started together may
dispatch simultaneously (see the counterexample). -/
theorem dispatch_spacing_within_effects (t : Nat) (ds : List Nat) :
    List.Chain' (fun a b => a + 3000 ≤ b)
      (fetchIconsDispatchTimes t (ds.map (fun d => (d, true))))
    ∧ List.Chain' (fun a b => a ≤ b) (fetchEmptyStatesDispatchTimes t ds) :=
  ⟨fetchIcons_chain t ds, fetchEmptyStates_chain t ds⟩

/-! ### Stored item status versus the classifier (src/src/App.tsx lines
522-534 handleManualAdd, src/src/services/geminiService.ts lines 55-67
analyzeFoodImage) -/

/-- The status enumeration stored on inventory items. -/
inductive ItemStatus
  | fresh
  | warning
  | expired
deriving DecidableEq, Repr

/-- Status written by handleManualAdd: fresh when shelfLife exceeds 3,
warning otherwise; the expiry date is now plus shelfLife days. -/
def manualAddStatus (shelfLife : Int) : ItemStatus :=
  if 3 < shelfLife then .fresh else .warning

/-- Status written by analyzeFoodImage from estimated_days_left: starts
fresh, overwritten to warning when at most 2, then to expired when at most
0. -/
def analyzeFoodImageStatus (days : Int) : ItemStatus :=
  if days ≤ 0 then .expired else if days ≤ 2 then .warning else .fresh

/-- Adding sl whole days to a timestamp adds exactly sl to the daysLeft the
classifier computes, whatever the time of day. -/
theorem getExpiryStatus_daysLeft_add (now sl : Int) :
    (getExpiryStatus (now + sl * msPerDay) now).daysLeft = sl := by
  rw [getExpiryStatus_daysLeft]
  unfold midnightOf msPerDay
  rw [Int.add_mul_ediv_right _ _ (by norm_num : (86400000:Int) ≠ 0)]
  have h : (86400000:Int) * (now / 86400000 + sl) - 86400000 * (now / 86400000)
      = 86400000 * sl := by ring
  rw [h, Int.mul_ediv_cancel_left _ (by norm_num : (86400000:Int) ≠ 0)]

/-- Counterexample to claim C8 as stated: the stored status is not
re-derivable from the classifier output. Writing items with shelf lives 3
and 5 days (both occur in FOOD_CATEGORIES, for example Pollo and Espinaca)
produces expiry dates the classifier puts in the same Soon bucket, yet
handleManualAdd stores warning for the first and fresh for the second, so no
function of the classifier category reproduces the stored status; moreover
the two writers disagree at 3 days left (manual add stores warning, photo
analysis stores fresh). -/
theorem status_projection_counterexample :
    (¬ ∃ f : String → ItemStatus, ∀ sl : Int,
        manualAddStatus sl
          = f ((getExpiryStatus (jan10_2024_morning + sl * msPerDay)
                jan10_2024_morning).category))
    ∧ manualAddStatus 3 = .warning
    ∧ manualAddStatus 5 = .fresh
    ∧ (getExpiryStatus (jan10_2024_morning + 3 * msPerDay) jan10_2024_morning).category
        = "Soon"
    ∧ (getExpiryStatus (jan10_2024_morning + 5 * msPerDay) jan10_2024_morning).category
        = "Soon"
    ∧ manualAddStatus 3 ≠ analyzeFoodImageStatus 3 := by
  refine ⟨?_, by decide, by decide, by decide, by decide, by decide⟩
  rintro ⟨f, h⟩
  have h3 := h 3
  have h5 := h 5
  have hc3 : (getExpiryStatus (jan10_2024_morning + 3 * msPerDay) jan10_2024_morning).category
      = "Soon" := by decide
  have hc5 : (getExpiryStatus (jan10_2024_morning + 5 * msPerDay) jan10_2024_morning).category
      = "Soon" := by decide
  rw [hc3] at h3
  rw [hc5] at h5
  have heq : manualAddStatus 3 = manualAddStatus 5 := by rw [h3, h5]
  exact absurd heq (by decide)

/-- Claim C8 (amended): each writer stores a status that is a fixed function
of the days left at write time, and it agrees with the classifier bucket
only outside the Soon range: an Urgent expiry is stored as warning by manual
add, a Fresh expiry is stored as fresh by both writers, but inside the Soon
bucket manual add stores fresh exactly for 4 or more days (warning at 3)
while photo analysis stores fresh throughout. -/
theorem status_write_time_characterization (now sl : Int) :
    (getExpiryStatus (now + sl * msPerDay) now).daysLeft = sl
    ∧ ((getExpiryStatus (now + sl * msPerDay) now).category = "Urgent" →
        manualAddStatus sl = .warning)
    ∧ ((getExpiryStatus (now + sl * msPerDay) now).category = "Fresh" →
        manualAddStatus sl = .fresh ∧ analyzeFoodImageStatus sl = .fresh)
    ∧ ((getExpiryStatus (now + sl * msPerDay) now).category = "Soon" →
        ((manualAddStatus sl = .fresh ↔ 4 ≤ sl) ∧ analyzeFoodImageStatus sl = .fresh)) := by
  have hd := getExpiryStatus_daysLeft_add now sl
  have hc := getExpiryStatus_category (now + sl * msPerDay) now
  rw [hd] at hc
  refine ⟨hd, ?_, ?_, ?_⟩ <;> rw [hc] <;> split_ifs with h1 h2 <;> intro hcat
  · simp [manualAddStatus]
    omega
  · exact absurd hcat (by decide)
  · exact absurd hcat (by decide)
  · exact absurd hcat (by decide)
  · exact absurd hcat (by decide)
  · refine ⟨?_, ?_⟩
    · simp only [manualAddStatus]
      rw [if_pos (by omega)]
    · simp only [analyzeFoodImageStatus]
      rw [if_neg (by omega), if_neg (by omega)]
  · exact absurd hcat (by decide)
  · refine ⟨?_, ?_⟩
    · simp only [manualAddStatus]
      split_ifs with h3 <;> simp <;> omega
    · simp only [analyzeFoodImageStatus]
      rw [if_neg (by omega), if_neg (by omega)]
  · exact absurd hcat (by decide)

/-- Witness for C8 (amended) at concrete inputs: one day of shelf life gives
daysLeft 1, an Urgent expiry, and a stored warning status. -/
theorem status_write_time_characterization_witness :
    (getExpiryStatus (jan10_2024_morning + 1 * msPerDay) jan10_2024_morning).daysLeft = 1
    ∧ manualAddStatus 1 = .warning :=
  ⟨(status_write_time_characterization jan10_2024_morning 1).1,
   (status_write_time_characterization jan10_2024_morning 1).2.1 (by decide)⟩

end Freshly
